import Mathlib

/-!
Shallow embedding of the Salesforce revoke-session action
(`src/dist/index.js`, variant `src/unnamed/part_002`).

The action's `invoke` handler performs three HTTP steps against a
Salesforce instance: resolve a username to a user id, list the user's
non-current auth sessions, and delete each session one at a time,
absorbing per-session failures. The HTTP side is modelled as an oracle
(`World`) supplying the responses the remote end would give; `invoke`
returns the thrown-or-returned outcome (`Except`), the ordered trace of
outbound HTTP calls, and the list of `console.warn` messages emitted by
the deletion loop. The `error` and `halt` lifecycle handlers are pure
and embedded directly.
-/

namespace SalesforceRevokeSession

/-- Single-quote character, built numerically so that the SOQL query
strings can embed it. -/
def sq : String := String.singleton (Char.ofNat 39)

/-- Uppercase hexadecimal digit for a value below 16, as produced by
JavaScript percent-encoding. -/
def hexUpper (n : Nat) : Char :=
  if n < 10 then Char.ofNat (48 + n) else Char.ofNat (55 + n)

/-- Bytes left unescaped by JavaScript `encodeURIComponent`:
alphanumerics and `- _ . ! ~ * ( )` and the single quote. -/
def isUnreservedByte (n : Nat) : Bool :=
  (65 ≤ n && n ≤ 90) || (97 ≤ n && n ≤ 122) || (48 ≤ n && n ≤ 57) ||
  n == 45 || n == 95 || n == 46 || n == 33 || n == 126 ||
  n == 42 || n == 39 || n == 40 || n == 41

/-- UTF-8 encoding of a Unicode code point, as the list of byte values. -/
def utf8Bytes (n : Nat) : List Nat :=
  if n < 128 then [n]
  else if n < 2048 then [192 + n / 64, 128 + n % 64]
  else if n < 65536 then [224 + n / 4096, 128 + (n / 64) % 64, 128 + n % 64]
  else [240 + n / 262144, 128 + (n / 4096) % 64, 128 + (n / 64) % 64, 128 + n % 64]

/-- Characters emitted for one byte by `encodeURIComponent`: the byte
itself when unreserved, otherwise a percent escape `%HH`. -/
def encodeByteChars (n : Nat) : List Char :=
  if isUnreservedByte n then [Char.ofNat n]
  else [Char.ofNat 37, hexUpper (n / 16), hexUpper (n % 16)]

/-- Model of JavaScript `encodeURIComponent`: percent-encode the UTF-8
bytes of every character outside the unreserved set. -/
def encodeURIComponent (s : String) : String :=
  ⟨(s.data.flatMap fun c => utf8Bytes c.toNat).flatMap encodeByteChars⟩

/-- JavaScript string falsiness for an optional string value: `undefined`
(or `null`) and the empty string are falsy. -/
def falsy : Option String → Bool
  | none => true
  | some s => s == ""

/-- The `ok` field of a fetch `Response`: status in the 200–299 range. -/
def respOk (status : Nat) : Bool := 200 ≤ status && status ≤ 299

/-- One outbound HTTP call, as issued by `callSalesforceAPI`. -/
structure Call where
  method : String
  url : String
deriving DecidableEq, Repr

/-- A record of the user query body: `{ Id }`. -/
structure UserRecord where
  Id : String
deriving DecidableEq, Repr

/-- A record of the session query body: `{ Id, UsersId }`. -/
structure SessionRecord where
  Id : String
  UsersId : String
deriving DecidableEq, Repr

/-- Response to one of the two SOQL query calls: HTTP status, status
text, and the `records` field of the parsed JSON body (`none` when the
field is missing or null). -/
structure QueryResponse (ρ : Type) where
  status : Nat
  statusText : String
  records : Option (List ρ)
deriving DecidableEq

/-- Outcome of one session-delete call: either an HTTP response or a
transport-level fault (a rejected fetch promise, caught by the loop). -/
inductive DeleteOutcome where
  | response (status : Nat) (statusText : String)
  | fault (message : String)
deriving DecidableEq, Repr

/-- Oracle for the remote end: responses for the user query, the session
query, and the i-th delete call of the loop. -/
structure World where
  userResp : QueryResponse UserRecord
  sessionResp : QueryResponse SessionRecord
  deleteOutcome : Nat → DeleteOutcome

/-- Job input parameters: `username` (required) and the optional
`apiVersion` (defaulting to v61.0 when absent). -/
structure Params where
  username : Option String
  apiVersion : Option String

/-- Execution context: the access-token secret and the instance-URL
environment variable, each possibly unset. -/
structure Context where
  accessToken : Option String
  instanceUrl : Option String

/-- Result record of a successful `invoke` run. The `processed_at`
timestamp is threaded in as the `now` argument of `invoke`. -/
structure InvokeResult where
  status : String
  username : String
  userId : String
  sessionsRevoked : Nat
  processed_at : String
deriving DecidableEq, Repr

/-- Endpoint of the user query (step 1), with the username already
percent-encoded. -/
def userQueryEndpoint (apiVersion encodedUsername : String) : String :=
  "/services/data/" ++ apiVersion ++
    "/query?q=SELECT+Id+FROM+User+WHERE+username+LIKE+" ++ sq ++
    encodedUsername ++ sq ++ "+ORDER+BY+Id+ASC"

/-- Endpoint of the session query (step 2). -/
def sessionQueryEndpoint (apiVersion userId : String) : String :=
  "/services/data/" ++ apiVersion ++
    "/query?q=SELECT+Id,UsersId+FROM+AuthSession+WHERE+UsersId=" ++ sq ++
    userId ++ sq ++ "+AND+IsCurrent=false+ORDER+BY+Id+ASC"

/-- Endpoint of one session delete (step 3). -/
def deleteEndpoint (apiVersion sessionId : String) : String :=
  "/services/data/" ++ apiVersion ++ "/sobjects/AuthSession/" ++ sessionId

/-- Step 3 of `invoke`: the sequential deletion loop. For the session at
loop index `i`: a 204 or 404 response increments the revoked count; any
other non-ok response records a warning naming the session; any other ok
response increments the count; a transport fault is caught and records a
warning naming the session. Returns the revoked count, the warnings in
emission order, and the delete calls issued. -/
def revokeSessions (apiVersion baseUrl : String) (outcome : Nat → DeleteOutcome) :
    List SessionRecord → Nat → Nat × List String × List Call
  | [], _ => (0, [], [])
  | s :: rest, i =>
    let call : Call := ⟨"DELETE", baseUrl ++ deleteEndpoint apiVersion s.Id⟩
    let next := revokeSessions apiVersion baseUrl outcome rest (i + 1)
    match outcome i with
    | DeleteOutcome.response st stx =>
      if st == 204 || st == 404 then
        (next.1 + 1, next.2.1, call :: next.2.2)
      else if !respOk st then
        (next.1,
         ("Failed to revoke session " ++ s.Id ++ ": " ++ toString st ++ " " ++ stx)
           :: next.2.1,
         call :: next.2.2)
      else
        (next.1 + 1, next.2.1, call :: next.2.2)
    | DeleteOutcome.fault m =>
      (next.1,
       ("Error revoking session " ++ s.Id ++ ": " ++ m) :: next.2.1,
       call :: next.2.2)

/-- The `invoke` handler. Mirrors `src/dist/index.js`: validate username,
secret and instance URL; query the user id (non-ok status or an absent or
empty `records` array is fatal); query the sessions (non-ok status is
fatal, absent `records` defaults to the empty list); short-circuit with a
success record when no sessions were found; otherwise run the deletion
loop and report the accumulated count. Returns the thrown-or-returned
outcome, the trace of outbound calls, and the loop's warnings. -/
def invoke (params : Params) (context : Context) (w : World) (now : String) :
    Except String InvokeResult × List Call × List String :=
  if falsy params.username then
    (Except.error "username is required", [], [])
  else
    let username := params.username.getD ""
    let apiVersion := params.apiVersion.getD "v61.0"
    if falsy context.accessToken then
      (Except.error "SALESFORCE_ACCESS_TOKEN secret is required", [], [])
    else if falsy context.instanceUrl then
      (Except.error "SALESFORCE_INSTANCE_URL environment variable is required", [], [])
    else
      let baseUrl := context.instanceUrl.getD ""
      let userCall : Call :=
        ⟨"GET", baseUrl ++ userQueryEndpoint apiVersion (encodeURIComponent username)⟩
      if !respOk w.userResp.status then
        (Except.error ("Failed to query user: " ++ toString w.userResp.status ++ " " ++
            w.userResp.statusText),
         [userCall], [])
      else
        match w.userResp.records with
        | none => (Except.error ("User not found: " ++ username), [userCall], [])
        | some [] => (Except.error ("User not found: " ++ username), [userCall], [])
        | some (r :: _) =>
          let userId := r.Id
          let sessionCall : Call :=
            ⟨"GET", baseUrl ++ sessionQueryEndpoint apiVersion userId⟩
          if !respOk w.sessionResp.status then
            (Except.error ("Failed to query sessions: " ++ toString w.sessionResp.status ++
                " " ++ w.sessionResp.statusText),
             [userCall, sessionCall], [])
          else
            let sessions := w.sessionResp.records.getD []
            if sessions.isEmpty then
              (Except.ok ⟨"success", username, userId, 0, now⟩,
               [userCall, sessionCall], [])
            else
              let res := revokeSessions apiVersion baseUrl w.deleteOutcome sessions 0
              (Except.ok ⟨"success", username, userId, res.1, now⟩,
               [userCall, sessionCall] ++ res.2.2, res.2.1)

/-- Substring test, as JavaScript `String.prototype.includes`. -/
def strIncludes (s pat : String) : Bool :=
  (List.range (s.data.length + 1)).any fun i => List.isPrefixOf pat.data (s.data.drop i)

/-- Outcome of the `error` lifecycle handler: either a returned record
(with its `status` field) or the error re-thrown unchanged. -/
inductive ErrorOutcome where
  | result (status : String)
  | rethrown (message : String)
deriving DecidableEq, Repr

/-- The `error` handler of `src/dist/index.js`, applied to the message of
the error it received: messages mentioning 429/502/503/504 request a
retry; messages mentioning 401/403, user-not-found, the missing-username
validation, or the two configuration variables re-throw the error
unchanged; everything else defaults to requesting a retry. -/
def errorHandler (message : String) : ErrorOutcome :=
  if strIncludes message "429" || strIncludes message "502" ||
      strIncludes message "503" || strIncludes message "504" then
    ErrorOutcome.result "retry_requested"
  else if strIncludes message "401" || strIncludes message "403" ||
      strIncludes message "User not found" ||
      strIncludes message "username is required" ||
      strIncludes message "SALESFORCE_ACCESS_TOKEN" ||
      strIncludes message "SALESFORCE_INSTANCE_URL" then
    ErrorOutcome.rethrown message
  else
    ErrorOutcome.result "retry_requested"

/-- Result record of the `halt` handler. -/
structure HaltResult where
  status : String
  username : String
  reason : Option String
  halted_at : String
deriving DecidableEq, Repr

/-- The `halt` handler: no HTTP call is made (the returned call trace is
empty), and the acknowledgment carries status halted, the username (or
the placeholder when the username is falsy), the reason unchanged, and
the current timestamp. -/
def halt (reason : Option String) (username : Option String) (now : String) :
    HaltResult × List Call :=
  ({ status := "halted",
     username := if falsy username then "unknown" else username.getD "",
     reason := reason,
     halted_at := now },
   [])

/-! Helper lemmas -/

/-- Every Unicode code point is below 0x110000. -/
lemma char_toNat_lt (c : Char) : c.toNat < 1114112 := by
  rcases c.valid with h | h
  · exact Nat.lt_trans h (by norm_num)
  · exact h.2

/-- UTF-8 encoding produces byte values. -/
lemma utf8Bytes_lt (n : Nat) (hn : n < 1114112) : ∀ m ∈ utf8Bytes n, m < 256 := by
  intro m hm
  unfold utf8Bytes at hm
  split at hm
  · simp at hm; omega
  · split at hm
    · simp at hm; rcases hm with h | h <;> omega
    · split at hm
      · simp at hm; rcases hm with h | h | h <;> omega
      · simp at hm; rcases hm with h | h | h | h <;> omega

/-- Unreserved bytes are ASCII. -/
lemma isUnreservedByte_lt (n : Nat) (h : isUnreservedByte n = true) : n < 128 := by
  simp [isUnreservedByte] at h
  omega

/-- Chars coming from small byte values round-trip through `Char.ofNat`. -/
lemma toNat_ofNat_lt_128 : ∀ n, n < 128 → (Char.ofNat n).toNat = n := by decide

/-- Hexadecimal digits are themselves unreserved characters. -/
lemma hexUpper_unreserved : ∀ m, m < 16 → isUnreservedByte (hexUpper m).toNat = true := by
  decide

/-- Each character emitted for one byte is unreserved or the percent sign. -/
lemma encodeByteChars_mem (n : Nat) (hn : n < 256) :
    ∀ c ∈ encodeByteChars n, isUnreservedByte c.toNat = true ∨ c = Char.ofNat 37 := by
  intro c hc
  unfold encodeByteChars at hc
  by_cases h : isUnreservedByte n = true
  · rw [if_pos h] at hc
    simp at hc
    subst hc
    refine Or.inl ?_
    rw [toNat_ofNat_lt_128 n (isUnreservedByte_lt n h)]
    exact h
  · rw [if_neg h] at hc
    simp at hc
    rcases hc with h1 | h2 | h3
    · exact Or.inr h1
    · subst h2
      exact Or.inl (hexUpper_unreserved (n / 16) (by omega))
    · subst h3
      exact Or.inl (hexUpper_unreserved (n % 16) (Nat.mod_lt _ (by norm_num)))

/-- Every character of an `encodeURIComponent` output is an unreserved
character or the percent sign: no reserved URL character of the input
survives unencoded. -/
lemma encodeURIComponent_chars (s : String) :
    ∀ c ∈ (encodeURIComponent s).data, isUnreservedByte c.toNat = true ∨ c = Char.ofNat 37 := by
  intro c hc
  have hc2 : c ∈ (s.data.flatMap fun ch => utf8Bytes ch.toNat).flatMap encodeByteChars := hc
  rcases List.mem_flatMap.mp hc2 with ⟨m, hm, hcm⟩
  rcases List.mem_flatMap.mp hm with ⟨ch, _, hmch⟩
  exact encodeByteChars_mem m (utf8Bytes_lt ch.toNat (char_toNat_lt ch) m hmch) c hcm

/-- The revoked count never exceeds the number of sessions processed. -/
lemma revokeSessions_count_le (v b : String) (f : Nat → DeleteOutcome) :
    ∀ (ss : List SessionRecord) (i : Nat), (revokeSessions v b f ss i).1 ≤ ss.length := by
  intro ss
  induction ss with
  | nil => intro i; simp [revokeSessions]
  | cons s rest ih =>
    intro i
    simp only [revokeSessions]
    cases h : f i with
    | response st stx =>
      simp only [h]
      split
      · simpa using Nat.succ_le_succ (ih (i + 1))
      · split
        · simpa using Nat.le_succ_of_le (ih (i + 1))
        · simpa using Nat.succ_le_succ (ih (i + 1))
    | fault m =>
      simp only [h]
      simpa using Nat.le_succ_of_le (ih (i + 1))

/-- Characterization of the deletion loop when every outcome is an HTTP
response that is 204, 404, or non-success: the count is the number of
204/404 statuses, the warnings are exactly one message per other status
naming the session, and one delete call is issued per session. -/
lemma revokeSessions_responses (v b stx : String) :
    ∀ (ss : List SessionRecord) (sts : List Nat) (i : Nat) (f : Nat → DeleteOutcome),
      sts.length = ss.length →
      (∀ st ∈ sts, st = 204 ∨ st = 404 ∨ respOk st = false) →
      (∀ k, k < ss.length → f (i + k) = DeleteOutcome.response (sts.getD k 0) stx) →
      revokeSessions v b f ss i =
        (sts.countP (fun st => st == 204 || st == 404),
         ((ss.zip sts).filterMap fun p =>
            if p.2 == 204 || p.2 == 404 then none
            else some ("Failed to revoke session " ++ p.1.Id ++ ": " ++
              toString p.2 ++ " " ++ stx)),
         ss.map fun s => Call.mk "DELETE" (b ++ deleteEndpoint v s.Id)) := by
  intro ss
  induction ss with
  | nil =>
    intro sts i f hlen _ _
    have : sts = [] := List.length_eq_zero.mp (by simpa using hlen)
    subst this
    simp [revokeSessions]
  | cons s rest ih =>
    intro sts i f hlen hsts hf
    cases sts with
    | nil => simp at hlen
    | cons st sts =>
      have h0 : f i = DeleteOutcome.response st stx := by simpa using hf 0 (by simp)
      have hrest : ∀ k, k < rest.length →
          f (i + 1 + k) = DeleteOutcome.response (sts.getD k 0) stx := by
        intro k hk
        have := hf (k + 1) (by simpa using Nat.succ_lt_succ hk)
        simpa [Nat.add_comm, Nat.add_left_comm, Nat.add_assoc] using this
      have ihr := ih sts (i + 1) f (by simpa using hlen)
        (fun x hx => hsts x (List.mem_cons_of_mem st hx)) hrest
      simp only [revokeSessions, h0, ihr]
      by_cases hc : (st == 204 || st == 404) = true
      · have hcp : st = 204 ∨ st = 404 := by simpa using hc
        rcases hcp with h | h <;> subst h <;>
          simp [List.countP_cons, List.filterMap_cons, Nat.add_comm]
      · have hko : respOk st = false := by
          rcases hsts st (List.mem_cons_self st sts) with h | h | h
          · exact absurd (by simp [h]) hc
          · exact absurd (by simp [h]) hc
          · exact h
        have hcn : ¬(st = 204 ∨ st = 404) := by simpa using hc
        simp [hc, hcn, hko, List.countP_cons, List.filterMap_cons]

/-! Claim theorems -/

/-- C1: for a session list whose per-session delete responses are each
204, 404, or some other non-success status, `invoke` returns a record
with `sessionsRevoked` equal to the number of 204/404 responses and
status success, and the warnings are exactly one message per non-204/404
response, each containing that session's identifier. -/
theorem invoke_mixed_outcomes
    (u av t b now stx : String) (r : UserRecord) (rs : List UserRecord)
    (ss : List SessionRecord) (sts : List Nat)
    (uSt sSt : Nat) (uTx sTx : String) (f : Nat → DeleteOutcome)
    (hu : u ≠ "") (ht : t ≠ "") (hb : b ≠ "")
    (huOk : respOk uSt = true) (hsOk : respOk sSt = true)
    (hlen : sts.length = ss.length)
    (hsts : ∀ st ∈ sts, st = 204 ∨ st = 404 ∨ respOk st = false)
    (hf : ∀ k, k < ss.length → f k = DeleteOutcome.response (sts.getD k 0) stx) :
    (invoke ⟨some u, some av⟩ ⟨some t, some b⟩
        ⟨⟨uSt, uTx, some (r :: rs)⟩, ⟨sSt, sTx, some ss⟩, f⟩ now).1
      = Except.ok ⟨"success", u, r.Id,
          sts.countP (fun st => st == 204 || st == 404), now⟩ ∧
    (invoke ⟨some u, some av⟩ ⟨some t, some b⟩
        ⟨⟨uSt, uTx, some (r :: rs)⟩, ⟨sSt, sTx, some ss⟩, f⟩ now).2.2
      = ((ss.zip sts).filterMap fun p =>
          if p.2 == 204 || p.2 == 404 then none
          else some ("Failed to revoke session " ++ p.1.Id ++ ": " ++
            toString p.2 ++ " " ++ stx)) := by
  have hrv := revokeSessions_responses av b stx ss sts 0 f hlen hsts (by simpa using hf)
  cases ss with
  | nil =>
    have : sts = [] := List.length_eq_zero.mp (by simpa using hlen)
    subst this
    simp [invoke, falsy, hu, ht, hb, huOk, hsOk]
  | cons s rest =>
    simp [invoke, falsy, hu, ht, hb, huOk, hsOk, hrv]

/-- C2: the error lifecycle callback requests a retry when the message
indicates 429, 502, 503 or 504; re-throws the error unchanged when the
message indicates 401, 403, user-not-found, a missing username, or
missing configuration; and defaults to requesting a retry otherwise
(the retryable check takes precedence). -/
theorem errorHandler_classification (m : String) :
    ((strIncludes m "429" || strIncludes m "502" ||
      strIncludes m "503" || strIncludes m "504") = true →
      errorHandler m = ErrorOutcome.result "retry_requested") ∧
    ((strIncludes m "429" || strIncludes m "502" ||
      strIncludes m "503" || strIncludes m "504") = false →
     (strIncludes m "401" || strIncludes m "403" ||
      strIncludes m "User not found" || strIncludes m "username is required" ||
      strIncludes m "SALESFORCE_ACCESS_TOKEN" ||
      strIncludes m "SALESFORCE_INSTANCE_URL") = true →
      errorHandler m = ErrorOutcome.rethrown m) ∧
    ((strIncludes m "429" || strIncludes m "502" ||
      strIncludes m "503" || strIncludes m "504") = false →
     (strIncludes m "401" || strIncludes m "403" ||
      strIncludes m "User not found" || strIncludes m "username is required" ||
      strIncludes m "SALESFORCE_ACCESS_TOKEN" ||
      strIncludes m "SALESFORCE_INSTANCE_URL") = false →
      errorHandler m = ErrorOutcome.result "retry_requested") := by
  refine ⟨fun h1 => by simp [errorHandler, h1],
    fun h1 h2 => by simp [errorHandler, h1, h2],
    fun h1 h2 => by simp [errorHandler, h1, h2]⟩

/-- C3: when the user query succeeds but returns zero records (or a body
with no `records` field), `invoke` fails with a user-not-found error
naming the username, having issued only the one user-query call: no
session query and no delete calls. -/
theorem invoke_user_not_found
    (u : String) (av : Option String) (t b now : String) (w : World)
    (hu : u ≠ "") (ht : t ≠ "") (hb : b ≠ "")
    (hOk : respOk w.userResp.status = true)
    (hrec : w.userResp.records = none ∨ w.userResp.records = some []) :
    invoke ⟨some u, av⟩ ⟨some t, some b⟩ w now =
      (Except.error ("User not found: " ++ u),
       [⟨"GET", b ++ userQueryEndpoint (av.getD "v61.0") (encodeURIComponent u)⟩],
       []) := by
  rcases hrec with h | h <;> simp [invoke, falsy, hu, ht, hb, hOk, h]

/-- C4: for every session list and every assignment of per-session delete
outcomes, including transport faults and arbitrary statuses, `invoke`
returns a success record (the loop never throws) with a revoked count
between 0 and the number of sessions. -/
theorem invoke_never_throws_count_bounded
    (u : String) (av : Option String) (t b now : String)
    (r : UserRecord) (rs : List UserRecord) (ss : List SessionRecord)
    (uSt sSt : Nat) (uTx sTx : String) (f : Nat → DeleteOutcome)
    (hu : u ≠ "") (ht : t ≠ "") (hb : b ≠ "")
    (huOk : respOk uSt = true) (hsOk : respOk sSt = true) :
    ∃ n, (invoke ⟨some u, av⟩ ⟨some t, some b⟩
        ⟨⟨uSt, uTx, some (r :: rs)⟩, ⟨sSt, sTx, some ss⟩, f⟩ now).1
      = Except.ok ⟨"success", u, r.Id, n, now⟩ ∧ 0 ≤ n ∧ n ≤ ss.length := by
  cases ss with
  | nil =>
    exact ⟨0, by simp [invoke, falsy, hu, ht, hb, huOk, hsOk],
      Nat.zero_le 0, Nat.le_refl 0⟩
  | cons s rest =>
    refine ⟨(revokeSessions (av.getD "v61.0") b f (s :: rest) 0).1,
      by simp [invoke, falsy, hu, ht, hb, huOk, hsOk], Nat.zero_le _, ?_⟩
    exact revokeSessions_count_le (av.getD "v61.0") b f (s :: rest) 0

/-- C5: when the session query succeeds and returns zero sessions,
`invoke` returns status success with `sessionsRevoked` 0, having issued
exactly the two query calls and no delete calls. -/
theorem invoke_zero_sessions
    (u : String) (av : Option String) (t b now : String)
    (r : UserRecord) (rs : List UserRecord)
    (uSt sSt : Nat) (uTx sTx : String) (f : Nat → DeleteOutcome)
    (hu : u ≠ "") (ht : t ≠ "") (hb : b ≠ "")
    (huOk : respOk uSt = true) (hsOk : respOk sSt = true) :
    invoke ⟨some u, av⟩ ⟨some t, some b⟩
        ⟨⟨uSt, uTx, some (r :: rs)⟩, ⟨sSt, sTx, some []⟩, f⟩ now =
      (Except.ok ⟨"success", u, r.Id, 0, now⟩,
       [⟨"GET", b ++ userQueryEndpoint (av.getD "v61.0") (encodeURIComponent u)⟩,
        ⟨"GET", b ++ sessionQueryEndpoint (av.getD "v61.0") r.Id⟩],
       []) := by
  simp [invoke, falsy, hu, ht, hb, huOk, hsOk]

/-- C6: with a missing or empty username, a missing access token, or a
missing instance URL, `invoke` fails with the corresponding descriptive
error and the trace of outbound HTTP calls is empty. -/
theorem invoke_missing_inputs
    (params : Params) (context : Context) (w : World) (now : String)
    (h : falsy params.username = true ∨ falsy context.accessToken = true ∨
      falsy context.instanceUrl = true) :
    invoke params context w now = (Except.error "username is required", [], []) ∨
    invoke params context w now =
      (Except.error "SALESFORCE_ACCESS_TOKEN secret is required", [], []) ∨
    invoke params context w now =
      (Except.error "SALESFORCE_INSTANCE_URL environment variable is required", [], []) := by
  by_cases h1 : falsy params.username = true
  · exact Or.inl (by simp [invoke, h1])
  · by_cases h2 : falsy context.accessToken = true
    · exact Or.inr (Or.inl (by simp [invoke, h1, h2]))
    · by_cases h3 : falsy context.instanceUrl = true
      · exact Or.inr (Or.inr (by simp [invoke, h1, h2, h3]))
      · rcases h with h | h | h <;> contradiction

/-- C7: the first outbound call of `invoke` is the user query whose URL
embeds the percent-encoded username; every character of the encoding is
an unreserved character or a percent sign, and the spec's example
username encodes exactly as stated. -/
theorem invoke_username_percent_encoded
    (u av t b now : String) (w : World)
    (hu : u ≠ "") (ht : t ≠ "") (hb : b ≠ "") :
    (∃ rest, (invoke ⟨some u, some av⟩ ⟨some t, some b⟩ w now).2.1
        = Call.mk "GET" (b ++ userQueryEndpoint av (encodeURIComponent u)) :: rest) ∧
    (∀ c ∈ (encodeURIComponent u).data,
        isUnreservedByte c.toNat = true ∨ c = Char.ofNat 37) ∧
    encodeURIComponent "test+user@example.com" = "test%2Buser%40example.com" := by
  refine ⟨?_, encodeURIComponent_chars u, by decide⟩
  by_cases h1 : respOk w.userResp.status = true
  · rcases hrec : w.userResp.records with _ | ⟨_ | ⟨r, rs⟩⟩
    · exact ⟨[], by simp [invoke, falsy, hu, ht, hb, h1, hrec]⟩
    · exact ⟨[], by simp [invoke, falsy, hu, ht, hb, h1, hrec]⟩
    · by_cases h2 : respOk w.sessionResp.status = true
      · rcases hsrec : w.sessionResp.records with _ | srecs
        · exact ⟨[⟨"GET", b ++ sessionQueryEndpoint av r.Id⟩],
            by simp [invoke, falsy, hu, ht, hb, h1, hrec, h2, hsrec]⟩
        · cases srecs with
          | nil =>
            exact ⟨[⟨"GET", b ++ sessionQueryEndpoint av r.Id⟩],
              by simp [invoke, falsy, hu, ht, hb, h1, hrec, h2, hsrec]⟩
          | cons s rest =>
            exact ⟨⟨"GET", b ++ sessionQueryEndpoint av r.Id⟩ ::
              (revokeSessions av b w.deleteOutcome (s :: rest) 0).2.2,
              by simp [invoke, falsy, hu, ht, hb, h1, hrec, h2, hsrec]⟩
      · exact ⟨[⟨"GET", b ++ sessionQueryEndpoint av r.Id⟩],
          by simp [invoke, falsy, hu, ht, hb, h1, hrec, h2]⟩
  · exact ⟨[], by simp [invoke, falsy, hu, ht, hb, h1]⟩

/-- C8: the halt callback returns status halted, echoes the reason, uses
the given username or the placeholder when none was supplied, carries
the timestamp, and issues no outbound HTTP calls. -/
theorem halt_acknowledgment (reason : Option String) (u now : String) (hu : u ≠ "") :
    halt reason (some u) now = (⟨"halted", u, reason, now⟩, []) ∧
    halt reason none now = (⟨"halted", "unknown", reason, now⟩, []) := by
  refine ⟨?_, rfl⟩
  simp [halt, falsy, hu]

/-- C9: whenever `invoke` returns a result record rather than throwing,
the record's status field is exactly success. -/
theorem invoke_ok_status_success
    (params : Params) (context : Context) (w : World) (now : String)
    (res : InvokeResult) (calls : List Call) (warns : List String)
    (h : invoke params context w now = (Except.ok res, calls, warns)) :
    res.status = "success" := by
  simp only [invoke] at h
  split at h
  · simp at h
  · split at h
    · simp at h
    · split at h
      · simp at h
      · split at h
        · simp at h
        · split at h
          · simp at h
          · simp at h
          · split at h
            · simp at h
            · split at h
              · rw [Prod.mk.injEq, Prod.mk.injEq, Except.ok.injEq] at h
                obtain ⟨h1, -, -⟩ := h
                rw [← h1]
              · rw [Prod.mk.injEq, Prod.mk.injEq, Except.ok.injEq] at h
                obtain ⟨h1, -, -⟩ := h
                rw [← h1]

/-- C10: a session-query response that is HTTP-ok but lacks a `records`
field is treated as an empty session list, yielding success with zero
revocations, whereas a user-query response lacking a `records` field is
the fatal user-not-found error. -/
theorem invoke_missing_records_asymmetry
    (u : String) (av : Option String) (t b now : String)
    (r : UserRecord) (rs : List UserRecord)
    (uSt sSt uSt2 : Nat) (uTx sTx uTx2 : String) (f f2 : Nat → DeleteOutcome)
    (sResp2 : QueryResponse SessionRecord)
    (hu : u ≠ "") (ht : t ≠ "") (hb : b ≠ "")
    (huOk : respOk uSt = true) (hsOk : respOk sSt = true)
    (huOk2 : respOk uSt2 = true) :
    (invoke ⟨some u, av⟩ ⟨some t, some b⟩
        ⟨⟨uSt, uTx, some (r :: rs)⟩, ⟨sSt, sTx, none⟩, f⟩ now).1
      = Except.ok ⟨"success", u, r.Id, 0, now⟩ ∧
    (invoke ⟨some u, av⟩ ⟨some t, some b⟩
        ⟨⟨uSt2, uTx2, none⟩, sResp2, f2⟩ now).1
      = Except.error ("User not found: " ++ u) := by
  constructor
  · simp [invoke, falsy, hu, ht, hb, huOk, hsOk]
  · simp [invoke, falsy, hu, ht, hb, huOk2]

/-! Witnesses: each theorem above with hypotheses, applied at a concrete
input with every hypothesis discharged there. -/

/-- Witness for C1 at a three-session run with outcomes 204, 404, 500. -/
theorem invoke_mixed_outcomes_witness :
    (invoke ⟨some "jane@example.com", some "v61.0"⟩ ⟨some "tok", some "https://b.example"⟩
        ⟨⟨200, "OK", some [⟨"u1"⟩]⟩,
         ⟨200, "OK", some [⟨"s1", "u1"⟩, ⟨"s2", "u1"⟩, ⟨"s3", "u1"⟩]⟩,
         fun k => DeleteOutcome.response ([204, 404, 500].getD k 0) "ERR"⟩ "T").1
      = Except.ok ⟨"success", "jane@example.com", "u1", 2, "T"⟩ ∧
    (invoke ⟨some "jane@example.com", some "v61.0"⟩ ⟨some "tok", some "https://b.example"⟩
        ⟨⟨200, "OK", some [⟨"u1"⟩]⟩,
         ⟨200, "OK", some [⟨"s1", "u1"⟩, ⟨"s2", "u1"⟩, ⟨"s3", "u1"⟩]⟩,
         fun k => DeleteOutcome.response ([204, 404, 500].getD k 0) "ERR"⟩ "T").2.2
      = ["Failed to revoke session s3: 500 ERR"] := by
  have h := invoke_mixed_outcomes "jane@example.com" "v61.0" "tok" "https://b.example"
    "T" "ERR" ⟨"u1"⟩ [] [⟨"s1", "u1"⟩, ⟨"s2", "u1"⟩, ⟨"s3", "u1"⟩] [204, 404, 500]
    200 200 "OK" "OK" (fun k => DeleteOutcome.response ([204, 404, 500].getD k 0) "ERR")
    (by decide) (by decide) (by decide) (by decide) (by decide)
    (by decide) (by decide) (by decide)
  exact ⟨h.1.trans rfl, h.2.trans rfl⟩

/-- Witness for C2 on a retryable, a fatal, and an unrecognized message. -/
theorem errorHandler_classification_witness :
    errorHandler "Failed to query user: 429 Too Many Requests"
      = ErrorOutcome.result "retry_requested" ∧
    errorHandler "Failed to query user: 401 Unauthorized"
      = ErrorOutcome.rethrown "Failed to query user: 401 Unauthorized" ∧
    errorHandler "something odd happened" = ErrorOutcome.result "retry_requested" :=
  ⟨(errorHandler_classification "Failed to query user: 429 Too Many Requests").1
      (by decide),
   (errorHandler_classification "Failed to query user: 401 Unauthorized").2.1
      (by decide) (by decide),
   (errorHandler_classification "something odd happened").2.2
      (by decide) (by decide)⟩

/-- Witness for C3 with an empty user-record list. -/
theorem invoke_user_not_found_witness :
    invoke ⟨some "ghost@example.com", none⟩ ⟨some "tok", some "https://b.example"⟩
        ⟨⟨200, "OK", some []⟩, ⟨200, "OK", none⟩, fun _ => DeleteOutcome.response 204 ""⟩ "T"
      = (Except.error "User not found: ghost@example.com",
         [⟨"GET", "https://b.example" ++ userQueryEndpoint "v61.0"
            (encodeURIComponent "ghost@example.com")⟩], []) := by
  have h := invoke_user_not_found "ghost@example.com" none "tok" "https://b.example" "T"
    ⟨⟨200, "OK", some []⟩, ⟨200, "OK", none⟩, fun _ => DeleteOutcome.response 204 ""⟩
    (by decide) (by decide) (by decide) (by decide) (Or.inr rfl)
  exact h.trans rfl

/-- Witness for C4 with every delete attempt failing at transport level. -/
theorem invoke_never_throws_count_bounded_witness :
    ∃ n, (invoke ⟨some "jo@example.com", none⟩ ⟨some "tok", some "https://b.example"⟩
        ⟨⟨200, "OK", some [⟨"u1"⟩]⟩, ⟨200, "OK", some [⟨"s1", "u1"⟩, ⟨"s2", "u1"⟩]⟩,
         fun _ => DeleteOutcome.fault "network down"⟩ "T").1
      = Except.ok ⟨"success", "jo@example.com", "u1", n, "T"⟩ ∧ 0 ≤ n ∧ n ≤ 2 := by
  have h := invoke_never_throws_count_bounded "jo@example.com" none "tok"
    "https://b.example" "T" ⟨"u1"⟩ [] [⟨"s1", "u1"⟩, ⟨"s2", "u1"⟩] 200 200 "OK" "OK"
    (fun _ => DeleteOutcome.fault "network down")
    (by decide) (by decide) (by decide) (by decide) (by decide)
  simpa using h

/-- Witness for C5 with an empty session list. -/
theorem invoke_zero_sessions_witness :
    invoke ⟨some "jo@example.com", none⟩ ⟨some "tok", some "https://b.example"⟩
        ⟨⟨200, "OK", some [⟨"u1"⟩]⟩, ⟨200, "OK", some []⟩,
         fun _ => DeleteOutcome.response 204 ""⟩ "T"
      = (Except.ok ⟨"success", "jo@example.com", "u1", 0, "T"⟩,
         [⟨"GET", "https://b.example" ++ userQueryEndpoint "v61.0"
            (encodeURIComponent "jo@example.com")⟩,
          ⟨"GET", "https://b.example" ++ sessionQueryEndpoint "v61.0" "u1"⟩], []) :=
  invoke_zero_sessions "jo@example.com" none "tok" "https://b.example" "T"
    ⟨"u1"⟩ [] 200 200 "OK" "OK" (fun _ => DeleteOutcome.response 204 "")
    (by decide) (by decide) (by decide) (by decide) (by decide)

/-- Witness for C6 with the username parameter absent. -/
theorem invoke_missing_inputs_witness :
    invoke ⟨none, none⟩ ⟨some "tok", some "https://b.example"⟩
        ⟨⟨200, "OK", none⟩, ⟨200, "OK", none⟩, fun _ => DeleteOutcome.response 204 ""⟩ "T"
      = (Except.error "username is required", [], []) ∨
    invoke ⟨none, none⟩ ⟨some "tok", some "https://b.example"⟩
        ⟨⟨200, "OK", none⟩, ⟨200, "OK", none⟩, fun _ => DeleteOutcome.response 204 ""⟩ "T"
      = (Except.error "SALESFORCE_ACCESS_TOKEN secret is required", [], []) ∨
    invoke ⟨none, none⟩ ⟨some "tok", some "https://b.example"⟩
        ⟨⟨200, "OK", none⟩, ⟨200, "OK", none⟩, fun _ => DeleteOutcome.response 204 ""⟩ "T"
      = (Except.error "SALESFORCE_INSTANCE_URL environment variable is required", [], []) :=
  invoke_missing_inputs ⟨none, none⟩ ⟨some "tok", some "https://b.example"⟩
    ⟨⟨200, "OK", none⟩, ⟨200, "OK", none⟩, fun _ => DeleteOutcome.response 204 ""⟩ "T"
    (Or.inl (by decide))

/-- Witness for C7 at the spec's example username. -/
theorem invoke_username_percent_encoded_witness :
    (∃ rest, (invoke ⟨some "test+user@example.com", some "v61.0"⟩
        ⟨some "tok", some "https://b.example"⟩
        ⟨⟨200, "OK", some []⟩, ⟨200, "OK", none⟩,
         fun _ => DeleteOutcome.response 204 ""⟩ "T").2.1
      = Call.mk "GET" ("https://b.example" ++ userQueryEndpoint "v61.0"
          (encodeURIComponent "test+user@example.com")) :: rest) ∧
    (∀ c ∈ (encodeURIComponent "test+user@example.com").data,
        isUnreservedByte c.toNat = true ∨ c = Char.ofNat 37) ∧
    encodeURIComponent "test+user@example.com" = "test%2Buser%40example.com" :=
  invoke_username_percent_encoded "test+user@example.com" "v61.0" "tok"
    "https://b.example" "T"
    ⟨⟨200, "OK", some []⟩, ⟨200, "OK", none⟩, fun _ => DeleteOutcome.response 204 ""⟩
    (by decide) (by decide) (by decide)

/-- Witness for C8 with and without a supplied username. -/
theorem halt_acknowledgment_witness :
    halt (some "timeout") (some "jo@example.com") "T"
      = (⟨"halted", "jo@example.com", some "timeout", "T"⟩, []) ∧
    halt (some "timeout") none "T"
      = (⟨"halted", "unknown", some "timeout", "T"⟩, []) :=
  halt_acknowledgment (some "timeout") "jo@example.com" "T" (by decide)

/-- Witness for C9 at a concrete successful run. -/
theorem invoke_ok_status_success_witness :
    (InvokeResult.mk "success" "jo@example.com" "u1" 0 "T").status = "success" :=
  invoke_ok_status_success ⟨some "jo@example.com", none⟩
    ⟨some "tok", some "https://b.example"⟩
    ⟨⟨200, "OK", some [⟨"u1"⟩]⟩, ⟨200, "OK", some []⟩,
     fun _ => DeleteOutcome.response 204 ""⟩ "T"
    ⟨"success", "jo@example.com", "u1", 0, "T"⟩
    [⟨"GET", "https://b.example" ++ userQueryEndpoint "v61.0"
        (encodeURIComponent "jo@example.com")⟩,
     ⟨"GET", "https://b.example" ++ sessionQueryEndpoint "v61.0" "u1"⟩] []
    (by rfl)

/-- Witness for C10 at concrete worlds missing the records field. -/
theorem invoke_missing_records_asymmetry_witness :
    (invoke ⟨some "jo@example.com", none⟩ ⟨some "tok", some "https://b.example"⟩
        ⟨⟨200, "OK", some [⟨"u1"⟩]⟩, ⟨200, "OK", none⟩,
         fun _ => DeleteOutcome.response 204 ""⟩ "T").1
      = Except.ok ⟨"success", "jo@example.com", "u1", 0, "T"⟩ ∧
    (invoke ⟨some "jo@example.com", none⟩ ⟨some "tok", some "https://b.example"⟩
        ⟨⟨200, "OK", none⟩, ⟨200, "OK", none⟩,
         fun _ => DeleteOutcome.response 204 ""⟩ "T").1
      = Except.error "User not found: jo@example.com" := by
  have h := invoke_missing_records_asymmetry "jo@example.com" none "tok"
    "https://b.example" "T" ⟨"u1"⟩ [] 200 200 200 "OK" "OK" "OK"
    (fun _ => DeleteOutcome.response 204 "") (fun _ => DeleteOutcome.response 204 "")
    ⟨200, "OK", none⟩
    (by decide) (by decide) (by decide) (by decide) (by decide) (by decide)
  exact ⟨h.1, h.2.trans rfl⟩

end SalesforceRevokeSession
